import Mathlib

/-
Verification development for the RePlate campus meal-claiming service.

The definitions below are a shallow embedding of the server code:
  - src/server/storage.ts (class DatabaseStorage, second/extended variant)
  - src/server/routes.ts  (the Express request handlers)

Modelling conventions:
  - Timestamps are Int (milliseconds since epoch); JS Date comparisons map to
    Int comparisons in the same direction.
  - Row ids are Nat; database-generated ids are modelled as list-length
    surrogates (no theorem depends on the concrete id values).
  - status columns are plain String, exactly as in the code, which compares
    them against the literals "reserved", "claimed", "expired", "cancelled",
    "available", "reserved_for_ngo", "collected".
  - The database is a record of four tables (lists of rows); an SQL
    UPDATE ... WHERE maps the matching rows, an INSERT appends, a SELECT with
    [row] destructuring is List.find?.
  - drizzle-orm drops fields passed as undefined from an UPDATE ... SET, so an
    omitted claimedAt argument leaves that column unchanged.
  - Request handlers are functions from inputs, current time and database to
    (outcome, database); error paths perform no storage write, so they return
    the database unchanged.
  - Auth / session lookup (out of scope per the spec) is elided: the caller's
    identity is a plain argument.
-/

namespace RePlate

/-- Reservation window: the claim route sets expiresAt two hours after now
(expiresAt.setHours(getHours() + 2)), i.e. 7200000 ms. -/
def twoHoursMs : Int := 7200000

/-- Row of the users table (fields per the upsert in storage.ts). -/
structure User where
  id : Nat
  email : Option String
  firstName : Option String
  lastName : Option String
  role : String
  studentId : Option String
  phoneNumber : Option String
  deriving Repr, DecidableEq

/-- Row of the food_items table. -/
structure FoodItem where
  id : Nat
  name : String
  description : Option String
  canteenName : String
  canteenLocation : Option String
  quantityAvailable : Int
  originalPrice : String
  discountedPrice : String
  imageUrl : Option String
  availableUntil : Int
  isActive : Bool
  createdBy : Nat
  createdAt : Int
  updatedAt : Int
  deriving Repr, DecidableEq

/-- Row of the food_claims table. -/
structure FoodClaim where
  id : Nat
  userId : Nat
  foodItemId : Nat
  quantityClaimed : Int
  claimCode : String
  status : String
  expiresAt : Int
  claimedAt : Option Int
  createdAt : Int
  deriving Repr, DecidableEq

/-- Row of the food_donations table. -/
structure FoodDonation where
  id : Nat
  foodItemId : Nat
  ngoName : Option String
  ngoContactPerson : Option String
  ngoPhoneNumber : Option String
  quantityDonated : Int
  status : String
  donatedAt : Option Int
  reservedAt : Option Int
  collectedAt : Option Int
  notes : Option String
  createdAt : Int
  deriving Repr, DecidableEq

/-- The whole persistent store: the four tables. -/
structure DB where
  users : List User
  items : List FoodItem
  claims : List FoodClaim
  donations : List FoodDonation
  deriving Repr, DecidableEq

/-- DatabaseStorage.getFoodItemById: SELECT ... WHERE id = ?, first row. -/
def getFoodItemById (itemId : Nat) (db : DB) : Option FoodItem :=
  db.items.find? (fun it => decide (it.id = itemId))

/-- First UPDATE of DatabaseStorage.updateExpiredItemsStatus applied to one
row: active items past availableUntil become inactive. -/
def deactivateExpired (now : Int) (it : FoodItem) : FoodItem :=
  if it.isActive = true ∧ it.availableUntil < now then
    { it with isActive := false, updatedAt := now }
  else it

/-- Second UPDATE of DatabaseStorage.updateExpiredItemsStatus applied to one
row: inactive items with availableUntil >= now and quantityAvailable >= 1 are
reactivated. -/
def reactivateCurrent (now : Int) (it : FoodItem) : FoodItem :=
  if it.isActive = false ∧ now ≤ it.availableUntil ∧ 1 ≤ it.quantityAvailable then
    { it with isActive := true, updatedAt := now }
  else it

/-- DatabaseStorage.updateExpiredItemsStatus (the expiry sweeper): runs the
deactivating UPDATE, then the reactivating UPDATE, and returns the number of
rows hit by the first one (expiredResult.length). -/
def updateExpiredItemsStatus (now : Int) (db : DB) : DB × Nat :=
  let pass1 := db.items.map (deactivateExpired now)
  let deactivatedCount :=
    (db.items.filter (fun it => decide (it.isActive = true ∧ it.availableUntil < now))).length
  let pass2 := pass1.map (reactivateCurrent now)
  ({ db with items := pass2 }, deactivatedCount)

/-- Ordering used by ORDER BY created_at DESC on food items. -/
def newerItemFirst (a b : FoodItem) : Prop := b.createdAt ≤ a.createdAt

instance : DecidableRel newerItemFirst := fun a b => Int.decLe b.createdAt a.createdAt

instance : IsTotal FoodItem newerItemFirst :=
  ⟨fun a b => Int.le_total b.createdAt a.createdAt⟩

instance : IsTrans FoodItem newerItemFirst :=
  ⟨fun _ _ _ h1 h2 => le_trans h2 h1⟩

/-- DatabaseStorage.getExpiredFoodItems: inactive items past availableUntil,
newest first. -/
def getExpiredFoodItems (now : Int) (db : DB) : List FoodItem :=
  (db.items.filter
    (fun it => decide (it.isActive = false ∧ it.availableUntil < now))).insertionSort
    newerItemFirst

/-- DatabaseStorage.createFoodClaim: INSERT the claim row, then UPDATE the
item row with quantity_available - quantityClaimed. -/
def createFoodClaim (claim : FoodClaim) (now : Int) (db : DB) : DB :=
  { db with
    claims := db.claims ++ [claim]
    items := db.items.map (fun it =>
      if it.id = claim.foodItemId then
        { it with quantityAvailable := it.quantityAvailable - claim.quantityClaimed,
                  updatedAt := now }
      else it) }

/-- DatabaseStorage.updateFoodClaimStatus: UPDATE ... SET status, claimedAt
WHERE id = ?. A none claimedAt models the omitted (undefined) argument, which
drizzle drops from the SET, leaving the column unchanged. -/
def updateFoodClaimStatus (claimId : Nat) (status : String) (claimedAt : Option Int)
    (db : DB) : DB :=
  { db with
    claims := db.claims.map (fun c =>
      if c.id = claimId then
        { c with status := status,
                 claimedAt := match claimedAt with
                   | some t => some t
                   | none => c.claimedAt }
      else c) }

/-- DatabaseStorage.getFoodClaimByClaimCode (= getClaimByCode): first claim row
with the given code; no status or expiry condition in the query. -/
def getFoodClaimByClaimCode (claimCode : String) (db : DB) : Option FoodClaim :=
  db.claims.find? (fun c => decide (c.claimCode = claimCode))

/-- Claim row looked up by id (SELECT ... WHERE id = ?, first row). -/
def claimById (claimId : Nat) (db : DB) : Option FoodClaim :=
  db.claims.find? (fun c => decide (c.id = claimId))

/-- Donation row looked up by id. -/
def donationById (donId : Nat) (db : DB) : Option FoodDonation :=
  db.donations.find? (fun d => decide (d.id = donId))

/-- DatabaseStorage.completeClaim: unconditionally set status "claimed" with
claimedAt = now, then re-read the row (error if the id resolves to nothing). -/
def completeClaim (claimId : Nat) (now : Int) (db : DB) :
    Except String FoodClaim × DB :=
  let db' := updateFoodClaimStatus claimId "claimed" (some now) db
  match claimById claimId db' with
  | some c => (.ok c, db')
  | none => (.error "Claim not found after completion", db')

/-- DatabaseStorage.getActiveFoodClaims: claims with status "reserved" and
expiresAt >= now (a pure SELECT; it writes nothing). -/
def getActiveFoodClaims (now : Int) (db : DB) : List FoodClaim :=
  db.claims.filter (fun c => decide (c.status = "reserved" ∧ now ≤ c.expiresAt))

/-- DatabaseStorage.createFoodDonation: INSERT one donation row. -/
def createFoodDonation (donation : FoodDonation) (db : DB) : DB :=
  { db with donations := db.donations ++ [donation] }

/-- NGO contact payload of PUT /api/donations/:id/reserve. -/
structure NgoInfo where
  ngoName : String
  ngoContactPerson : String
  ngoPhoneNumber : String
  deriving Repr, DecidableEq

/-- DatabaseStorage.updateDonationStatus: UPDATE the row with the given id;
the SET payload depends on the target status exactly as in the code, with no
check of the row's current status. Returns the updated row (first match). -/
def updateDonationStatus (donId : Nat) (status : String) (ngoInfo : Option NgoInfo)
    (now : Int) (db : DB) : Option FoodDonation × DB :=
  let applySet : FoodDonation → FoodDonation := fun d =>
    match ngoInfo with
    | some info =>
      if status = "reserved_for_ngo" then
        { d with status := status,
                 ngoName := some info.ngoName,
                 ngoContactPerson := some info.ngoContactPerson,
                 ngoPhoneNumber := some info.ngoPhoneNumber,
                 reservedAt := some now }
      else if status = "collected" then
        { d with status := status, collectedAt := some now }
      else { d with status := status }
    | none =>
      if status = "collected" then
        { d with status := status, collectedAt := some now }
      else { d with status := status }
  let donations := db.donations.map (fun d => if d.id = donId then applySet d else d)
  (donations.find? (fun d => decide (d.id = donId)), { db with donations := donations })

/-- Donation row created by transferExpiredItemsToDonations for an expired
item (the remaining fields take their column defaults). -/
def mkAutoDonation (newId : Nat) (it : FoodItem) (now : Int) : FoodDonation :=
  { id := newId
    foodItemId := it.id
    ngoName := none
    ngoContactPerson := none
    ngoPhoneNumber := none
    quantityDonated := it.quantityAvailable
    status := "available"
    donatedAt := some now
    reservedAt := none
    collectedAt := none
    notes := some ("Auto-transferred from expired food item: " ++ it.name)
    createdAt := now }

/-- The for-loop of transferExpiredItemsToDonations over the expired items:
skip items with no remaining quantity, skip items that already have a donation
row (the existence check runs against the live table, so it also sees rows
created earlier in the same loop), otherwise insert one "available" donation
carrying the item's remaining quantity; count the insertions. -/
def transferLoop (now : Int) : List FoodItem → List FoodDonation → List FoodDonation × Nat
  | [], dons => (dons, 0)
  | it :: rest, dons =>
    if 0 < it.quantityAvailable then
      if (dons.find? (fun d => decide (d.foodItemId = it.id))).isSome then
        transferLoop now rest dons
      else
        let out := transferLoop now rest (dons ++ [mkAutoDonation dons.length it now])
        (out.1, out.2 + 1)
    else transferLoop now rest dons

/-- DatabaseStorage.transferExpiredItemsToDonations: run the sweeper, read the
expired items, run the creation loop, return the number of donations created. -/
def transferExpiredItemsToDonations (now : Int) (db : DB) : DB × Nat :=
  let db1 := (updateExpiredItemsStatus now db).1
  let expired := getExpiredFoodItems now db1
  let out := transferLoop now expired db1.donations
  ({ db1 with donations := out.1 }, out.2)

/-- Result row of DatabaseStorage.getAllActiveFoodItems: the item columns plus
the left-joined creator row. -/
structure FoodItemWithCreator where
  item : FoodItem
  createdByUser : Option User
  deriving Repr, DecidableEq

/-- Ordering used by ORDER BY created_at DESC on the joined rows. -/
def newerRowFirst (a b : FoodItemWithCreator) : Prop :=
  b.item.createdAt ≤ a.item.createdAt

instance : DecidableRel newerRowFirst :=
  fun a b => Int.decLe b.item.createdAt a.item.createdAt

instance : IsTotal FoodItemWithCreator newerRowFirst :=
  ⟨fun a b => Int.le_total b.item.createdAt a.item.createdAt⟩

instance : IsTrans FoodItemWithCreator newerRowFirst :=
  ⟨fun _ _ _ h1 h2 => le_trans h2 h1⟩

/-- DatabaseStorage.getAllActiveFoodItems: first run the sweeper, then SELECT
items with isActive AND availableUntil >= now AND quantityAvailable >= 1,
left-joined with the creating user, newest first. -/
def getAllActiveFoodItems (now : Int) (db : DB) : List FoodItemWithCreator × DB :=
  let db' := (updateExpiredItemsStatus now db).1
  let rows := db'.items.filter
    (fun it => decide (it.isActive = true ∧ now ≤ it.availableUntil ∧
      1 ≤ it.quantityAvailable))
  let joined := rows.map (fun it =>
    { item := it
      createdByUser := db'.users.find? (fun u => decide (u.id = it.createdBy)) })
  (joined.insertionSort newerRowFirst, db')

/-- Outcome of POST /api/food-claims (the reserve handler). The three error
constructors are the handler's 404 "Food item not found or inactive",
400 "Insufficient quantity available" and 400 "Food item is no longer
available" responses; together they form the spec's NotAvailable class. -/
inductive ReserveOutcome where
  | notFoundOrInactive
  | insufficientQuantity
  | noLongerAvailable
  | created (claim : FoodClaim)
  deriving Repr, DecidableEq

/-- True on each of the three catalog-precondition failures, false on
success. -/
def ReserveOutcome.isNotAvailable : ReserveOutcome → Bool
  | .created _ => false
  | _ => true

/-- POST /api/food-claims: validate the item (exists, isActive, enough
quantity, availableUntil strictly in the future — the code rejects when
now >= availableUntil), then build the claim with status "reserved" and
expiresAt = now + 2 hours and store it via createFoodClaim. The generated
claim code enters as a parameter. -/
def reserveRoute (userId foodItemId : Nat) (quantityClaimed : Int) (claimCode : String)
    (now : Int) (db : DB) : ReserveOutcome × DB :=
  match getFoodItemById foodItemId db with
  | none => (.notFoundOrInactive, db)
  | some foodItem =>
    if foodItem.isActive = false then (.notFoundOrInactive, db)
    else if foodItem.quantityAvailable < quantityClaimed then (.insufficientQuantity, db)
    else if foodItem.availableUntil ≤ now then (.noLongerAvailable, db)
    else
      let claim : FoodClaim :=
        { id := db.claims.length
          userId := userId
          foodItemId := foodItemId
          quantityClaimed := quantityClaimed
          claimCode := claimCode
          status := "reserved"
          expiresAt := now + twoHoursMs
          claimedAt := none
          createdAt := now }
      (.created claim, createFoodClaim claim now db)

/-- Outcome of GET /api/food-claims/code/:claimCode. -/
inductive LookupOutcome where
  | notFound
  | expired
  | success (claim : FoodClaim)
  deriving Repr, DecidableEq

/-- GET /api/food-claims/code/:claimCode: look the claim up by code; if
now > expiresAt, flip its status to "expired" (claimedAt omitted) and fail;
otherwise return the claim — with no check of its status. -/
def claimCodeLookupRoute (claimCode : String) (now : Int) (db : DB) :
    LookupOutcome × DB :=
  match getFoodClaimByClaimCode claimCode db with
  | none => (.notFound, db)
  | some claim =>
    if claim.expiresAt < now then
      (.expired, updateFoodClaimStatus claim.id "expired" none db)
    else (.success claim, db)

/-- Outcome of POST /api/food-claims/verify. -/
inductive VerifyOutcome where
  | codeRequired
  | invalidCode
  | wrongState (status : String)
  | expired
  | success (claim : FoodClaim)
  deriving Repr, DecidableEq

/-- POST /api/food-claims/verify: empty code → required; unknown code →
invalid; status other than "reserved" → wrongState with the current status;
reserved but now > expiresAt → expired. The handler performs no storage write
on any path, so the database always comes back unchanged. -/
def verifyRoute (claimCode : String) (now : Int) (db : DB) : VerifyOutcome × DB :=
  if claimCode = "" then (.codeRequired, db)
  else
    match getFoodClaimByClaimCode claimCode db with
    | none => (.invalidCode, db)
    | some claim =>
      if claim.status ≠ "reserved" then (.wrongState claim.status, db)
      else if claim.expiresAt < now then (.expired, db)
      else (.success claim, db)

/-- POST /api/food-claims/:id/complete: calls storage.completeClaim with no
precondition of its own. -/
def completeRoute (claimId : Nat) (now : Int) (db : DB) :
    Except String FoodClaim × DB :=
  completeClaim claimId now db

/-- Outcome of PUT /api/donations/:id/reserve. -/
inductive DonationOutcome where
  | ngoInfoRequired
  | updated (donation : Option FoodDonation)
  deriving Repr, DecidableEq

/-- PUT /api/donations/:id/reserve: any of the three NGO fields empty (falsy)
→ 400 "NGO information is required" with no write; otherwise update the
donation to "reserved_for_ngo" with the NGO fields and reservedAt = now. -/
def reserveDonationRoute (donId : Nat)
    (ngoName ngoContactPerson ngoPhoneNumber : String)
    (now : Int) (db : DB) : DonationOutcome × DB :=
  if ngoName = "" ∨ ngoContactPerson = "" ∨ ngoPhoneNumber = "" then
    (.ngoInfoRequired, db)
  else
    let out := updateDonationStatus donId "reserved_for_ngo"
      (some { ngoName := ngoName, ngoContactPerson := ngoContactPerson,
              ngoPhoneNumber := ngoPhoneNumber }) now db
    (.updated out.1, out.2)

/-- One reserve request of a C1 operation sequence: the caller, the requested
quantity, the generated code and the wall-clock time of the call. -/
structure ReserveRequest where
  userId : Nat
  quantityClaimed : Int
  claimCode : String
  now : Int
  deriving Repr, DecidableEq

/-- Run a sequence of reserve requests against one item, each through the
POST /api/food-claims handler. -/
def runReserves (itemId : Nat) : List ReserveRequest → DB → DB
  | [], db => db
  | r :: rs, db =>
    runReserves itemId rs (reserveRoute r.userId itemId r.quantityClaimed r.claimCode r.now db).2

/-- Sum of quantityClaimed over the claims on the given item whose status is
"reserved" or "claimed". -/
def reservedOrClaimedTotal (itemId : Nat) (claims : List FoodClaim) : Int :=
  ((claims.filter (fun c => decide (c.foodItemId = itemId ∧
    (c.status = "reserved" ∨ c.status = "claimed")))).map
      (fun c => c.quantityClaimed)).sum

/-- find? commutes with mapping a function that does not change the truth of
the search predicate (an UPDATE ... WHERE id keeps every row's id, so a
SELECT ... WHERE id sees the updated image of the row it saw before). -/
theorem find?_map_comm {α : Type} (f : α → α) (p : α → Bool)
    (hp : ∀ x, p (f x) = p x) (l : List α) :
    (l.map f).find? p = (l.find? p).map f := by
  induction l with
  | nil => rfl
  | cons x xs ih =>
    by_cases h : p x = true
    · rw [List.map_cons, List.find?_cons_of_pos _ ((hp x).trans h),
        List.find?_cons_of_pos _ h]
      rfl
    · have h' : ¬ p x := by simpa using h
      rw [List.map_cons, List.find?_cons_of_neg _ (by simpa [hp x] using h'),
        List.find?_cons_of_neg _ h', ih]

/-- Mapping a function that fixes every element of a list is the identity. -/
theorem map_id_of_eq {α : Type} {f : α → α} {l : List α}
    (h : ∀ x ∈ l, f x = x) : l.map f = l := by
  induction l with
  | nil => rfl
  | cons x xs ih =>
    rw [List.map_cons, h x (by simp), ih (fun y hy => h y (by simp [hy]))]

/-- A claim-by-id lookup after updateFoodClaimStatus sees the updated image of
the row it saw before, because the UPDATE keeps every row's id. -/
theorem claimById_updateFoodClaimStatus (cid target : Nat) (st : String)
    (ca : Option Int) (db : DB) :
    claimById cid (updateFoodClaimStatus target st ca db) =
      (claimById cid db).map (fun c =>
        if c.id = target then
          { c with status := st,
                   claimedAt := match ca with | some t => some t | none => c.claimedAt }
        else c) := by
  unfold claimById updateFoodClaimStatus
  exact find?_map_comm _ _ (fun x => by split <;> rfl) _

/-- An item-by-id lookup after the decrement of createFoodClaim sees the
updated image of the row it saw before. -/
theorem getFoodItemById_createFoodClaim (itemId : Nat) (claim : FoodClaim)
    (now : Int) (db : DB) :
    getFoodItemById itemId (createFoodClaim claim now db) =
      (getFoodItemById itemId db).map (fun it =>
        if it.id = claim.foodItemId then
          { it with quantityAvailable := it.quantityAvailable - claim.quantityClaimed,
                    updatedAt := now }
        else it) := by
  unfold getFoodItemById createFoodClaim
  exact find?_map_comm _ _ (fun x => by split <;> rfl) _

/-- A donation-by-id lookup after updateDonationStatus sees the updated image
of the row it saw before. -/
theorem donationById_updateDonationStatus (did target : Nat) (st : String)
    (info : Option NgoInfo) (now : Int) (db : DB) :
    donationById did (updateDonationStatus target st info now db).2 =
      (donationById did db).map (fun d =>
        if d.id = target then
          (match info with
           | some i =>
             if st = "reserved_for_ngo" then
               { d with status := st, ngoName := some i.ngoName,
                        ngoContactPerson := some i.ngoContactPerson,
                        ngoPhoneNumber := some i.ngoPhoneNumber,
                        reservedAt := some now }
             else if st = "collected" then
               { d with status := st, collectedAt := some now }
             else { d with status := st }
           | none =>
             if st = "collected" then
               { d with status := st, collectedAt := some now }
             else { d with status := st })
        else d) := by
  unfold donationById updateDonationStatus
  refine find?_map_comm _ _ (fun x => ?_) _
  dsimp only
  split
  · rcases info with _ | i <;> dsimp only <;> split <;> try rfl
    split <;> rfl
  · rfl

/-- Example staff user for the concrete witnesses. -/
def exUser : User :=
  { id := 9, email := none, firstName := none, lastName := none,
    role := "staff", studentId := none, phoneNumber := none }

/-- Example active food item (5 portions, available until t = 1000). -/
def exItem : FoodItem :=
  { id := 1, name := "Pizza", description := none, canteenName := "Main",
    canteenLocation := none, quantityAvailable := 5,
    originalPrice := "250.00", discountedPrice := "180.00", imageUrl := none,
    availableUntil := 1000, isActive := true, createdBy := 9,
    createdAt := 10, updatedAt := 10 }

/-- Catalog holding just exItem. -/
def exDbItems : DB := { users := [], items := [exItem], claims := [], donations := [] }

/-- C2 — reserve(studentId, foodItemId, quantity): when the item exists, is
active, availableUntil > now and quantityAvailable >= quantity, the handler
creates a claim with status "reserved" and expiresAt = now + 2 hours and
decrements the item's quantityAvailable by quantity; when any precondition is
violated it fails with one of the NotAvailable-class errors and leaves the
store unchanged. -/
theorem claim_C2 (userId foodItemId : Nat) (q : Int) (code : String)
    (now : Int) (db : DB) :
    (∀ it, getFoodItemById foodItemId db = some it → it.isActive = true →
      now < it.availableUntil → q ≤ it.quantityAvailable →
      ∃ c, (reserveRoute userId foodItemId q code now db).1 = .created c ∧
        c.status = "reserved" ∧ c.expiresAt = now + twoHoursMs ∧
        c.userId = userId ∧ c.foodItemId = foodItemId ∧ c.quantityClaimed = q ∧
        (reserveRoute userId foodItemId q code now db).2.claims = db.claims ++ [c] ∧
        getFoodItemById foodItemId (reserveRoute userId foodItemId q code now db).2 =
          some { it with quantityAvailable := it.quantityAvailable - q,
                         updatedAt := now } ∧
        (reserveRoute userId foodItemId q code now db).2.donations = db.donations ∧
        (reserveRoute userId foodItemId q code now db).2.users = db.users) ∧
    ((getFoodItemById foodItemId db = none ∨
      ∃ it, getFoodItemById foodItemId db = some it ∧
        (it.isActive = false ∨ it.quantityAvailable < q ∨ it.availableUntil ≤ now)) →
      (reserveRoute userId foodItemId q code now db).1.isNotAvailable = true ∧
      (reserveRoute userId foodItemId q code now db).2 = db) := by
  constructor
  · intro it hfind hact hau hq
    have hid : it.id = foodItemId := by
      have := List.find?_some hfind
      simpa using this
    refine ⟨{ id := db.claims.length, userId := userId, foodItemId := foodItemId,
              quantityClaimed := q, claimCode := code, status := "reserved",
              expiresAt := now + twoHoursMs, claimedAt := none, createdAt := now },
            ?_⟩
    have hred : reserveRoute userId foodItemId q code now db =
        (.created { id := db.claims.length, userId := userId, foodItemId := foodItemId,
                    quantityClaimed := q, claimCode := code, status := "reserved",
                    expiresAt := now + twoHoursMs, claimedAt := none, createdAt := now },
         createFoodClaim { id := db.claims.length, userId := userId,
                           foodItemId := foodItemId, quantityClaimed := q,
                           claimCode := code, status := "reserved",
                           expiresAt := now + twoHoursMs, claimedAt := none,
                           createdAt := now } now db) := by
      unfold reserveRoute
      rw [hfind]
      dsimp only
      rw [if_neg (by simp [hact]), if_neg (by omega), if_neg (by omega)]
    rw [hred]
    refine ⟨rfl, rfl, rfl, rfl, rfl, rfl, rfl, ?_, rfl, rfl⟩
    rw [getFoodItemById_createFoodClaim, hfind]
    dsimp only [Option.map]
    rw [if_pos hid]
  · intro hbad
    rcases hfind : getFoodItemById foodItemId db with _ | it
    · unfold reserveRoute
      rw [hfind]
      exact ⟨rfl, rfl⟩
    · unfold reserveRoute
      rw [hfind]
      dsimp only
      rcases hbad with hnone | ⟨it', hit', hdisj⟩
      · rw [hfind] at hnone; cases hnone
      · rw [hfind] at hit'
        cases hit'
        split_ifs with h1 h2 h3
        · exact ⟨rfl, rfl⟩
        · exact ⟨rfl, rfl⟩
        · exact ⟨rfl, rfl⟩
        · exfalso
          rcases hdisj with h | h | h
          · exact h1 h
          · exact h2 h
          · exact h3 h

/-- Concrete run of the reserve handler through claim_C2: reserving 2 of the
5 available portions succeeds with a "reserved" claim expiring two hours
later, and over-reserving 99 portions fails leaving the store unchanged. -/
theorem claim_C2_witness :
    (∃ c, (reserveRoute 7 1 2 "AB" 100 exDbItems).1 = .created c ∧
      c.status = "reserved" ∧ c.expiresAt = 100 + twoHoursMs ∧
      getFoodItemById 1 (reserveRoute 7 1 2 "AB" 100 exDbItems).2 =
        some { exItem with quantityAvailable := 3, updatedAt := 100 }) ∧
    (reserveRoute 7 1 99 "XY" 100 exDbItems).1.isNotAvailable = true ∧
    (reserveRoute 7 1 99 "XY" 100 exDbItems).2 = exDbItems := by
  constructor
  · obtain ⟨c, h1, h2, h3, _, _, _, _, h8, _, _⟩ :=
      (claim_C2 7 1 2 "AB" 100 exDbItems).1 exItem (by decide) (by decide)
        (by decide) (by decide)
    exact ⟨c, h1, h2, h3, h8.trans (by decide)⟩
  · exact (claim_C2 7 1 99 "XY" 100 exDbItems).2
      (Or.inr ⟨exItem, by decide, Or.inr (Or.inl (by decide))⟩)

/-- Claims table for the C10 witness: an unexpired cancelled claim and an
already-redeemed claim whose reservation window has passed. -/
def exClaimCancelled : FoodClaim :=
  { id := 21, userId := 7, foodItemId := 1, quantityClaimed := 1,
    claimCode := "CC", status := "cancelled", expiresAt := 500,
    claimedAt := none, createdAt := 20 }

/-- Redeemed claim whose expiresAt lies in the past. -/
def exClaimRedeemed : FoodClaim :=
  { id := 22, userId := 7, foodItemId := 1, quantityClaimed := 1,
    claimCode := "DD", status := "claimed", expiresAt := 50,
    claimedAt := some 40, createdAt := 20 }

/-- Store holding the two claims above. -/
def exDbLookup : DB :=
  { users := [], items := [exItem],
    claims := [exClaimCancelled, exClaimRedeemed], donations := [] }

/-- C10 — the GET /api/food-claims/code/:claimCode handler performs no status
check: any stored claim whose expiresAt has not passed is returned as a
success regardless of its status, and any claim past its expiresAt has its
status set to "expired" whatever it was before, after which the handler
fails. -/
theorem claim_C10 (code : String) (now : Int) (db : DB) :
    (getFoodClaimByClaimCode code db = none →
      claimCodeLookupRoute code now db = (.notFound, db)) ∧
    (∀ c, getFoodClaimByClaimCode code db = some c →
      (now ≤ c.expiresAt → claimCodeLookupRoute code now db = (.success c, db)) ∧
      (c.expiresAt < now →
        (claimCodeLookupRoute code now db).1 = .expired ∧
        claimById c.id (claimCodeLookupRoute code now db).2 =
          (claimById c.id db).map (fun c0 => { c0 with status := "expired" }))) := by
  constructor
  · intro h
    unfold claimCodeLookupRoute
    rw [h]
  · intro c hc
    constructor
    · intro hle
      unfold claimCodeLookupRoute
      rw [hc]
      dsimp only
      rw [if_neg (by omega)]
    · intro hlt
      have hroute : claimCodeLookupRoute code now db =
          (.expired, updateFoodClaimStatus c.id "expired" none db) := by
        unfold claimCodeLookupRoute
        rw [hc]
        dsimp only
        rw [if_pos hlt]
      rw [hroute]
      refine ⟨rfl, ?_⟩
      rw [claimById_updateFoodClaimStatus]
      rcases hfind : claimById c.id db with _ | c0
      · rfl
      · have hid : c0.id = c.id := by
          have := List.find?_some hfind
          simpa using this
        dsimp only [Option.map]
        rw [if_pos hid]

/-- Concrete runs of the code-lookup handler through claim_C10: a cancelled
but unexpired claim is returned as a success, and a redeemed claim past its
window is flipped to "expired" and rejected. -/
theorem claim_C10_witness :
    (claimCodeLookupRoute "CC" 100 exDbLookup = (.success exClaimCancelled, exDbLookup) ∧
      exClaimCancelled.status = "cancelled") ∧
    ((claimCodeLookupRoute "DD" 100 exDbLookup).1 = .expired ∧
      claimById exClaimRedeemed.id (claimCodeLookupRoute "DD" 100 exDbLookup).2 =
        some { exClaimRedeemed with status := "expired" }) := by
  constructor
  · exact ⟨((claim_C10 "CC" 100 exDbLookup).2 exClaimCancelled (by decide)).1
      (by decide), rfl⟩
  · obtain ⟨h1, h2⟩ := ((claim_C10 "DD" 100 exDbLookup).2 exClaimRedeemed
      (by decide)).2 (by decide)
    exact ⟨h1, by rw [h2]; decide⟩

/-- The verify handler performs no storage write on any path. -/
theorem verifyRoute_state (code : String) (now : Int) (db : DB) :
    (verifyRoute code now db).2 = db := by
  unfold verifyRoute
  split
  · rfl
  · split
    · rfl
    · split
      · rfl
      · split <;> rfl

/-- The complete handler's resulting store is exactly the unconditional
status/claimedAt UPDATE of storage.updateFoodClaimStatus. -/
theorem completeRoute_state (cid : Nat) (now : Int) (db : DB) :
    (completeRoute cid now db).2 =
      updateFoodClaimStatus cid "claimed" (some now) db := by
  unfold completeRoute completeClaim
  dsimp only
  split <;> rfl

/-- After complete, the target claim reads back with status "claimed" and
claimedAt = now, whatever its previous status was. -/
theorem complete_claimById (cid : Nat) (now : Int) (db : DB) (c : FoodClaim)
    (hc : claimById cid db = some c) :
    claimById cid (completeRoute cid now db).2 =
      some { c with status := "claimed", claimedAt := some now } := by
  rw [completeRoute_state, claimById_updateFoodClaimStatus, hc]
  dsimp only [Option.map]
  rw [if_pos (by simpa using List.find?_some hc)]

/-- The unconditional claim UPDATE is idempotent at a fixed timestamp. -/
theorem updateFoodClaimStatus_idem (cid : Nat) (st : String) (t : Int) (db : DB) :
    updateFoodClaimStatus cid st (some t) (updateFoodClaimStatus cid st (some t) db) =
      updateFoodClaimStatus cid st (some t) db := by
  unfold updateFoodClaimStatus
  dsimp only
  congr 1
  rw [List.map_map]
  refine List.map_congr_left (fun c _ => ?_)
  dsimp only [Function.comp]
  by_cases h : c.id = cid
  · rw [if_pos h, if_pos h]
  · rw [if_neg h, if_neg h]

/-- When the looked-up claim is not past its window, the code-lookup handler
writes nothing. -/
theorem lookup_unexpired_state (code : String) (now : Int) (db : DB)
    (c : FoodClaim) (hc : getFoodClaimByClaimCode code db = some c)
    (hle : now ≤ c.expiresAt) :
    (claimCodeLookupRoute code now db).2 = db := by
  unfold claimCodeLookupRoute
  rw [hc]
  dsimp only
  rw [if_neg (by omega)]

/-- When the looked-up claim is past its window, the code-lookup handler
rewrites its status to "expired" (keeping claimedAt), whatever it was. -/
theorem lookup_expired_claim (code : String) (now : Int) (db : DB)
    (c : FoodClaim) (hc : getFoodClaimByClaimCode code db = some c)
    (hlt : c.expiresAt < now) :
    claimById c.id (claimCodeLookupRoute code now db).2 =
      (claimById c.id db).map (fun c0 => { c0 with status := "expired" }) := by
  have hroute : (claimCodeLookupRoute code now db).2 =
      updateFoodClaimStatus c.id "expired" none db := by
    unfold claimCodeLookupRoute
    rw [hc]
    dsimp only
    rw [if_pos hlt]
  rw [hroute, claimById_updateFoodClaimStatus]
  rcases hfind : claimById c.id db with _ | c0
  · rfl
  · have hid : c0.id = c.id := by simpa using List.find?_some hfind
    dsimp only [Option.map]
    rw [if_pos hid]

/-- Reserved claim whose two-hour window has already lapsed (still stored with
status "reserved"). -/
def exClaimReservedOld : FoodClaim :=
  { id := 23, userId := 7, foodItemId := 1, quantityClaimed := 1,
    claimCode := "ZZ", status := "reserved", expiresAt := 50,
    claimedAt := none, createdAt := 20 }

/-- Store holding the lapsed reserved claim. -/
def exDbVerify : DB :=
  { users := [], items := [exItem], claims := [exClaimReservedOld],
    donations := [] }

/-- C3 counterexample — the claim states that verify on a reserved claim past
its expiresAt "lazily flips the claim's status to expired as a side effect".
On the stored reserved claim with expiresAt = 50 at now = 100 the verify
handler answers Expired but leaves the store byte-for-byte unchanged: the
claim's status is still "reserved", not "expired". -/
theorem claim_C3_counterexample :
    (verifyRoute "ZZ" 100 exDbVerify).1 = .expired ∧
    (verifyRoute "ZZ" 100 exDbVerify).2 = exDbVerify ∧
    claimById 23 (verifyRoute "ZZ" 100 exDbVerify).2 = some exClaimReservedOld ∧
    exClaimReservedOld.status = "reserved" := by decide

/-- C3 (amended) — verify(claimCode): unknown code fails with InvalidCode,
status other than "reserved" fails with WrongState reporting the current
status, a reserved claim past expiresAt fails with Expired, and otherwise the
claim is returned; success is only ever reported for an unexpired reserved
claim. Amendment: the Expired failure performs NO status flip — the verify
handler never writes (the lazy flip lives in the code-lookup handler, not in
verify). -/
theorem claim_C3_amended (code : String) (now : Int) (db : DB) :
    (verifyRoute code now db).2 = db ∧
    (code ≠ "" → getFoodClaimByClaimCode code db = none →
      (verifyRoute code now db).1 = .invalidCode) ∧
    (∀ c, code ≠ "" → getFoodClaimByClaimCode code db = some c →
      (c.status ≠ "reserved" → (verifyRoute code now db).1 = .wrongState c.status) ∧
      (c.status = "reserved" → c.expiresAt < now →
        (verifyRoute code now db).1 = .expired) ∧
      (c.status = "reserved" → now ≤ c.expiresAt →
        (verifyRoute code now db).1 = .success c)) ∧
    (∀ cl, (verifyRoute code now db).1 = .success cl →
      cl.status = "reserved" ∧ now ≤ cl.expiresAt) := by
  refine ⟨verifyRoute_state code now db, ?_, ?_, ?_⟩
  · intro hne hnone
    unfold verifyRoute
    rw [if_neg hne, hnone]
  · intro c hne hc
    refine ⟨?_, ?_, ?_⟩
    · intro hst
      unfold verifyRoute
      rw [if_neg hne, hc]
      dsimp only
      rw [if_pos hst]
    · intro hst hlt
      unfold verifyRoute
      rw [if_neg hne, hc]
      dsimp only
      rw [if_neg (by simp [hst]), if_pos hlt]
    · intro hst hle
      unfold verifyRoute
      rw [if_neg hne, hc]
      dsimp only
      rw [if_neg (by simp [hst]), if_neg (by omega)]
  · intro cl hcl
    unfold verifyRoute at hcl
    by_cases h0 : code = ""
    · rw [if_pos h0] at hcl
      simp at hcl
    · rw [if_neg h0] at hcl
      rcases hfind : getFoodClaimByClaimCode code db with _ | c
      · rw [hfind] at hcl
        simp at hcl
      · rw [hfind] at hcl
        dsimp only at hcl
        by_cases h1 : c.status ≠ "reserved"
        · rw [if_pos h1] at hcl
          simp at hcl
        · rw [if_neg h1] at hcl
          by_cases h2 : c.expiresAt < now
          · rw [if_pos h2] at hcl
            simp at hcl
          · rw [if_neg h2] at hcl
            have hcc : c = cl := by simpa using hcl
            subst hcc
            exact ⟨not_not.mp h1, by omega⟩

/-- Concrete runs of the verify handler through claim_C3_amended: a cancelled
claim is rejected with WrongState reporting "cancelled" and the store is
unchanged, while an in-window reserved claim verifies successfully. -/
theorem claim_C3_amended_witness :
    ((verifyRoute "CC" 100 exDbLookup).1 = .wrongState "cancelled" ∧
      (verifyRoute "CC" 100 exDbLookup).2 = exDbLookup) ∧
    (verifyRoute "ZZ" 40 exDbVerify).1 = .success exClaimReservedOld := by
  constructor
  · exact ⟨((claim_C3_amended "CC" 100 exDbLookup).2.2.1 exClaimCancelled
      (by decide) (by decide)).1 (by decide),
      (claim_C3_amended "CC" 100 exDbLookup).1⟩
  · exact ((claim_C3_amended "ZZ" 40 exDbVerify).2.2.1 exClaimReservedOld
      (by decide) (by decide)).2.2 (by decide) (by decide)

/-- C4 counterexample — the claim states that no operation ever transitions a
claim out of claimed, expired or cancelled. The complete handler, applied to
the stored claim with status "cancelled", succeeds and rewrites it to status
"claimed" with claimedAt stamped: a transition out of cancelled. -/
theorem claim_C4_counterexample :
    claimById 21 exDbLookup = some exClaimCancelled ∧
    exClaimCancelled.status = "cancelled" ∧
    claimById 21 (completeRoute 21 200 exDbLookup).2 =
      some { exClaimCancelled with status := "claimed", claimedAt := some 200 } := by
  decide

/-- C4 (amended) — what the code actually maintains: verify never modifies any
claim; the sweeper (run by the listing endpoints) touches no claim; complete
sets the target claim's status to "claimed" and claimedAt to now REGARDLESS of
its prior status, so a claim can transition out of expired or cancelled;
lookup-by-code leaves claims unchanged while the window is open and rewrites
the looked-up claim's status to "expired" (keeping claimedAt, so
claimedAt-set-iff-claimed is not maintained) once now > expiresAt, whatever
the prior status. -/
theorem claim_C4_amended (db : DB) (cid : Nat) (code : String) (now : Int) :
    (verifyRoute code now db).2 = db ∧
    (updateExpiredItemsStatus now db).1.claims = db.claims ∧
    (∀ c, claimById cid db = some c →
      claimById cid (completeRoute cid now db).2 =
        some { c with status := "claimed", claimedAt := some now }) ∧
    (∀ c, getFoodClaimByClaimCode code db = some c → now ≤ c.expiresAt →
      (claimCodeLookupRoute code now db).2 = db) ∧
    (∀ c, getFoodClaimByClaimCode code db = some c → c.expiresAt < now →
      claimById c.id (claimCodeLookupRoute code now db).2 =
        (claimById c.id db).map (fun c0 => { c0 with status := "expired" })) := by
  refine ⟨verifyRoute_state code now db, rfl, ?_, ?_, ?_⟩
  · intro c hc
    exact complete_claimById cid now db c hc
  · intro c hc hle
    exact lookup_unexpired_state code now db c hc hle
  · intro c hc hlt
    exact lookup_expired_claim code now db c hc hlt

/-- Concrete run of the operations through claim_C4_amended: complete turns
the cancelled claim into a claimed one (showing the transition the code
permits), and verify leaves the store unchanged. -/
theorem claim_C4_amended_witness :
    claimById 21 (completeRoute 21 300 exDbLookup).2 =
      some { exClaimCancelled with status := "claimed", claimedAt := some 300 } ∧
    (verifyRoute "CC" 300 exDbLookup).2 = exDbLookup := by
  exact ⟨(claim_C4_amended exDbLookup 21 "CC" 300).2.2.1 exClaimCancelled (by decide),
    (claim_C4_amended exDbLookup 21 "CC" 300).1⟩

/-- Stored claim already in status "expired". -/
def exClaimExpiredStatus : FoodClaim :=
  { id := 24, userId := 7, foodItemId := 1, quantityClaimed := 1,
    claimCode := "EE", status := "expired", expiresAt := 50,
    claimedAt := none, createdAt := 20 }

/-- Store holding the expired-status claim. -/
def exDbComplete : DB :=
  { users := [], items := [exItem], claims := [exClaimExpiredStatus],
    donations := [] }

/-- C5 counterexample — the claim states complete(claimId) is only reachable
from status reserved. Applied to the stored claim whose status is "expired",
the complete handler succeeds (returns the updated row) and rewrites the
status to "claimed". -/
theorem claim_C5_counterexample :
    claimById 24 exDbComplete = some exClaimExpiredStatus ∧
    exClaimExpiredStatus.status = "expired" ∧
    (completeRoute 24 300 exDbComplete).1 =
      .ok { exClaimExpiredStatus with status := "claimed", claimedAt := some 300 } := by
  refine ⟨by decide, by decide, ?_⟩
  rfl

/-- C5 (amended) — complete(claimId) succeeds from any status (it performs no
status precondition), so it is not restricted to reserved; calling it twice
leaves the claim in status "claimed" (the second call only re-stamps
claimedAt, and at an identical timestamp it is an exact no-op); and complete
never touches the items, donations or users tables, so in particular the
referenced item's quantityAvailable and all other item fields are unchanged,
however many times it is called (no double-decrement). -/
theorem claim_C5_amended (db : DB) (cid : Nat) (t1 t2 : Int) :
    (completeRoute cid t1 db).2.items = db.items ∧
    (completeRoute cid t1 db).2.donations = db.donations ∧
    (completeRoute cid t1 db).2.users = db.users ∧
    (∀ c, claimById cid db = some c →
      claimById cid (completeRoute cid t2 (completeRoute cid t1 db).2).2 =
        some { c with status := "claimed", claimedAt := some t2 }) ∧
    (completeRoute cid t1 (completeRoute cid t1 db).2).2 =
      (completeRoute cid t1 db).2 := by
  refine ⟨by rw [completeRoute_state]; rfl, by rw [completeRoute_state]; rfl,
    by rw [completeRoute_state]; rfl, ?_, ?_⟩
  · intro c hc
    have h1 : claimById cid (completeRoute cid t1 db).2 =
        some { c with status := "claimed", claimedAt := some t1 } :=
      complete_claimById cid t1 db c hc
    have h2 := complete_claimById cid t2 (completeRoute cid t1 db).2
      { c with status := "claimed", claimedAt := some t1 } h1
    exact h2
  · rw [completeRoute_state, completeRoute_state]
    exact updateFoodClaimStatus_idem cid "claimed" t1 db

/-- Concrete run of one and two completions through claim_C5_amended: the
items table is untouched and the double completion ends claimed. -/
theorem claim_C5_amended_witness :
    (completeRoute 24 300 exDbComplete).2.items = exDbComplete.items ∧
    claimById 24 (completeRoute 24 400 (completeRoute 24 300 exDbComplete).2).2 =
      some { exClaimExpiredStatus with status := "claimed", claimedAt := some 400 } ∧
    (completeRoute 24 300 (completeRoute 24 300 exDbComplete).2).2 =
      (completeRoute 24 300 exDbComplete).2 := by
  refine ⟨(claim_C5_amended exDbComplete 24 300 400).1, ?_,
    (claim_C5_amended exDbComplete 24 300 300).2.2.2.2⟩
  exact (claim_C5_amended exDbComplete 24 300 400).2.2.2.1 exClaimExpiredStatus
    (by decide)

/-- Appending a fresh claim with status "reserved" on the item adds its
quantity to the reserved/claimed total. -/
theorem total_append_reserved (itemId : Nat) (cs : List FoodClaim) (c : FoodClaim)
    (hfid : c.foodItemId = itemId) (hst : c.status = "reserved") :
    reservedOrClaimedTotal itemId (cs ++ [c]) =
      reservedOrClaimedTotal itemId cs + c.quantityClaimed := by
  unfold reservedOrClaimedTotal
  rw [List.filter_append]
  have hone : List.filter (fun c' => decide (c'.foodItemId = itemId ∧
      (c'.status = "reserved" ∨ c'.status = "claimed"))) [c] = [c] := by
    simp [hfid, hst]
  rw [hone, List.map_append, List.sum_append]
  simp

/-- A claims table with no claim on the item contributes a zero total. -/
theorem total_eq_zero (itemId : Nat) (cs : List FoodClaim)
    (h : ∀ c ∈ cs, c.foodItemId ≠ itemId) :
    reservedOrClaimedTotal itemId cs = 0 := by
  unfold reservedOrClaimedTotal
  have hnil : cs.filter (fun c' => decide (c'.foodItemId = itemId ∧
      (c'.status = "reserved" ∨ c'.status = "claimed"))) = [] :=
    List.filter_eq_nil_iff.mpr (fun c hc => by simp [h c hc])
  rw [hnil]
  rfl

/-- C1 invariant carried through a reserve sequence: the item row exists, its
quantityAvailable is non-negative and equals the original quantity minus the
reserved/claimed total over the claims table. -/
def ReserveInv (itemId : Nat) (q0 : Int) (db : DB) : Prop :=
  ∃ it, getFoodItemById itemId db = some it ∧
    0 ≤ it.quantityAvailable ∧
    it.quantityAvailable = q0 - reservedOrClaimedTotal itemId db.claims

/-- One reserve call against the item preserves the C1 invariant: failures
leave the store untouched, and a success decrements by exactly the quantity it
simultaneously records on the new reserved claim, guarded by the
quantityAvailable >= quantity check. -/
theorem reserve_step_inv (itemId : Nat) (q0 : Int) (r : ReserveRequest) (db : DB)
    (h : ReserveInv itemId q0 db) :
    ReserveInv itemId q0
      (reserveRoute r.userId itemId r.quantityClaimed r.claimCode r.now db).2 := by
  obtain ⟨it, hfind, hpos, heq⟩ := h
  unfold reserveRoute
  rw [hfind]
  dsimp only
  split_ifs with h1 h2 h3
  · exact ⟨it, hfind, hpos, heq⟩
  · exact ⟨it, hfind, hpos, heq⟩
  · exact ⟨it, hfind, hpos, heq⟩
  · have hid : it.id = itemId := by simpa using List.find?_some hfind
    refine ⟨{ it with quantityAvailable := it.quantityAvailable - r.quantityClaimed, updatedAt := r.now }, ?_, show 0 ≤ it.quantityAvailable - r.quantityClaimed by omega, ?_⟩
    · rw [getFoodItemById_createFoodClaim, hfind]
      dsimp only [Option.map]
      rw [if_pos hid]
    · dsimp only [createFoodClaim]
      rw [total_append_reserved itemId db.claims _ rfl rfl]
      dsimp only
      omega

/-- The C1 invariant holds after any sequence of reserve calls, by induction
over the sequence. -/
theorem runReserves_inv (itemId : Nat) (q0 : Int) :
    ∀ (reqs : List ReserveRequest) (db : DB), ReserveInv itemId q0 db →
      ReserveInv itemId q0 (runReserves itemId reqs db)
  | [], _, h => h
  | r :: rs, db, h =>
    runReserves_inv itemId q0 rs _ (reserve_step_inv itemId q0 r db h)

/-- C1 — for every item and every sequence of reserve calls against it
(starting from a catalog state with no claims on the item and a non-negative
stocked quantity q0), the item's quantityAvailable never goes negative, the
sum of quantityClaimed over its reserved/claimed claims never exceeds q0, and
the final quantityAvailable equals q0 minus that sum (every claim the handler
creates has status "reserved", so the sum is exactly the successfully reserved
total). Since the bound holds for arbitrary sequences, it holds at every
prefix. -/
theorem claim_C1 (itemId : Nat) (q0 : Int) (db0 : DB) (it0 : FoodItem)
    (hfind : getFoodItemById itemId db0 = some it0)
    (hq0 : it0.quantityAvailable = q0) (hq0pos : 0 ≤ q0)
    (hnoclaims : ∀ c ∈ db0.claims, c.foodItemId ≠ itemId)
    (reqs : List ReserveRequest) :
    ∃ it, getFoodItemById itemId (runReserves itemId reqs db0) = some it ∧
      0 ≤ it.quantityAvailable ∧
      reservedOrClaimedTotal itemId (runReserves itemId reqs db0).claims ≤ q0 ∧
      it.quantityAvailable =
        q0 - reservedOrClaimedTotal itemId (runReserves itemId reqs db0).claims := by
  have hbase : ReserveInv itemId q0 db0 :=
    ⟨it0, hfind, by omega, by rw [total_eq_zero itemId db0.claims hnoclaims]; omega⟩
  obtain ⟨it, h1, h2, h3⟩ := runReserves_inv itemId q0 reqs db0 hbase
  exact ⟨it, h1, h2, by omega, h3⟩

/-- Three concrete reserve calls: 2 portions (succeeds), 9 portions (fails on
quantity), 3 portions (succeeds, emptying the item). -/
def exReqs : List ReserveRequest :=
  [{ userId := 7, quantityClaimed := 2, claimCode := "A1", now := 100 },
   { userId := 8, quantityClaimed := 9, claimCode := "A2", now := 100 },
   { userId := 7, quantityClaimed := 3, claimCode := "A3", now := 100 }]

/-- Concrete run of the C1 invariant over exReqs against the 5-portion item. -/
theorem claim_C1_witness :
    ∃ it, getFoodItemById 1 (runReserves 1 exReqs exDbItems) = some it ∧
      0 ≤ it.quantityAvailable ∧
      reservedOrClaimedTotal 1 (runReserves 1 exReqs exDbItems).claims ≤ 5 ∧
      it.quantityAvailable =
        5 - reservedOrClaimedTotal 1 (runReserves 1 exReqs exDbItems).claims :=
  claim_C1 1 5 exDbItems exItem (by decide) (by decide) (by decide)
    (by decide) exReqs

/-- Field-by-field behaviour of one sweep on one item row: identity fields are
kept, an active row past availableUntil goes inactive, an inactive row with
availableUntil >= now and quantity >= 1 goes active, and every other row keeps
its flag. -/
theorem sweptItem_props (now : Int) (it : FoodItem) :
    (reactivateCurrent now (deactivateExpired now it)).id = it.id ∧
    (reactivateCurrent now (deactivateExpired now it)).name = it.name ∧
    (reactivateCurrent now (deactivateExpired now it)).quantityAvailable =
      it.quantityAvailable ∧
    (reactivateCurrent now (deactivateExpired now it)).availableUntil =
      it.availableUntil ∧
    (reactivateCurrent now (deactivateExpired now it)).createdBy = it.createdBy ∧
    (reactivateCurrent now (deactivateExpired now it)).createdAt = it.createdAt ∧
    (it.isActive = true → it.availableUntil < now →
      (reactivateCurrent now (deactivateExpired now it)).isActive = false) ∧
    (it.isActive = false → now ≤ it.availableUntil → 1 ≤ it.quantityAvailable →
      (reactivateCurrent now (deactivateExpired now it)).isActive = true) ∧
    (it.isActive = true → now ≤ it.availableUntil →
      (reactivateCurrent now (deactivateExpired now it)).isActive = true) ∧
    (it.isActive = false → ¬(now ≤ it.availableUntil ∧ 1 ≤ it.quantityAvailable) →
      (reactivateCurrent now (deactivateExpired now it)).isActive = false) := by
  unfold reactivateCurrent deactivateExpired
  split_ifs with h1 h2 <;>
    refine ⟨rfl, rfl, rfl, rfl, rfl, rfl, ?_, ?_, ?_, ?_⟩ <;>
      intros <;> simp_all <;> omega

/-- C7 — the expiry sweeper: it touches no claim (and no donation or user),
keeps the item list's length and every item's identifying fields, deactivates
exactly the active items past availableUntil, reactivates exactly the inactive
items with availableUntil >= now and quantityAvailable >= 1, leaves every
other activity flag alone, and returns the count of newly-deactivated items
only (reactivated items are not counted). -/
theorem claim_C7 (now : Int) (db : DB) :
    (updateExpiredItemsStatus now db).1.claims = db.claims ∧
    (updateExpiredItemsStatus now db).1.donations = db.donations ∧
    (updateExpiredItemsStatus now db).1.users = db.users ∧
    (updateExpiredItemsStatus now db).1.items.length = db.items.length ∧
    (∀ (i : Nat) (it : FoodItem), db.items[i]? = some it →
      ∃ it' : FoodItem, (updateExpiredItemsStatus now db).1.items[i]? = some it' ∧
        it'.id = it.id ∧ it'.name = it.name ∧
        it'.quantityAvailable = it.quantityAvailable ∧
        it'.availableUntil = it.availableUntil ∧
        it'.createdBy = it.createdBy ∧ it'.createdAt = it.createdAt ∧
        (it.isActive = true → it.availableUntil < now → it'.isActive = false) ∧
        (it.isActive = false → now ≤ it.availableUntil →
          1 ≤ it.quantityAvailable → it'.isActive = true) ∧
        (it.isActive = true → now ≤ it.availableUntil → it'.isActive = true) ∧
        (it.isActive = false →
          ¬(now ≤ it.availableUntil ∧ 1 ≤ it.quantityAvailable) →
          it'.isActive = false)) ∧
    (updateExpiredItemsStatus now db).2 =
      (db.items.filter (fun it =>
        decide (it.isActive = true ∧ it.availableUntil < now))).length := by
  refine ⟨rfl, rfl, rfl, ?_, ?_, rfl⟩
  · unfold updateExpiredItemsStatus
    simp
  · intro i it hit
    refine ⟨reactivateCurrent now (deactivateExpired now it), ?_, ?_⟩
    · unfold updateExpiredItemsStatus
      dsimp only
      rw [List.getElem?_map, List.getElem?_map, hit]
      rfl
    · exact sweptItem_props now it

/-- Stale inactive item with a future availableUntil and two portions — the
spec's sweeper round-trip example. -/
def exItemStale : FoodItem :=
  { id := 2, name := "Wrap", description := none, canteenName := "Cafe",
    canteenLocation := none, quantityAvailable := 2,
    originalPrice := "165.00", discountedPrice := "115.00", imageUrl := none,
    availableUntil := 500, isActive := false, createdBy := 9,
    createdAt := 15, updatedAt := 15 }

/-- Catalog holding just the stale item. -/
def exDbSweep : DB :=
  { users := [], items := [exItemStale], claims := [], donations := [] }

/-- Concrete sweep through claim_C7: the stale inactive item with future
availableUntil and quantity 2 becomes active after one sweep, and the claims
table is untouched. -/
theorem claim_C7_witness :
    (∃ it' : FoodItem,
      (updateExpiredItemsStatus 100 exDbSweep).1.items[0]? = some it' ∧
      it'.isActive = true) ∧
    (updateExpiredItemsStatus 100 exDbSweep).1.claims = exDbSweep.claims := by
  constructor
  · obtain ⟨it', hget, _, _, _, _, _, _, _, hreact, _, _⟩ :=
      (claim_C7 100 exDbSweep).2.2.2.2.1 0 exItemStale (by decide)
    exact ⟨it', hget, hreact (by decide) (by decide) (by decide)⟩
  · exact (claim_C7 100 exDbSweep).1

/-- Active item whose availableUntil equals the current instant exactly. -/
def exItemBoundary : FoodItem :=
  { id := 3, name := "Salad", description := none, canteenName := "Cafe",
    canteenLocation := none, quantityAvailable := 1,
    originalPrice := "195.00", discountedPrice := "130.00", imageUrl := none,
    availableUntil := 100, isActive := true, createdBy := 9,
    createdAt := 30, updatedAt := 30 }

/-- Catalog holding the boundary item and its creating staff user. -/
def exDbBoundary : DB :=
  { users := [exUser], items := [exItemBoundary], claims := [], donations := [] }

/-- C8 counterexample — the claim states listActive returns exactly the items
satisfying isActive AND availableUntil > now AND quantityAvailable >= 1, and
that no item failing that invariant appears. The stored query filters with
availableUntil >= now (gte), so at now = 100 the item with availableUntil =
100 — which fails the strict invariant — appears in the result. -/
theorem claim_C8_counterexample :
    (getAllActiveFoodItems 100 exDbBoundary).1 =
      [{ item := exItemBoundary, createdByUser := some exUser }] ∧
    ¬(100 < exItemBoundary.availableUntil) := by decide

/-- C8 (amended) — listActive() first runs the sweeper and then returns
exactly the items with isActive = true AND availableUntil >= now (boundary
included, unlike the strict availability invariant) AND quantityAvailable >=
1, each joined with its creator row, ordered newest first. -/
theorem claim_C8_amended (now : Int) (db : DB) :
    (getAllActiveFoodItems now db).2 = (updateExpiredItemsStatus now db).1 ∧
    (∀ row : FoodItemWithCreator, row ∈ (getAllActiveFoodItems now db).1 ↔
      ∃ it : FoodItem, it ∈ (updateExpiredItemsStatus now db).1.items ∧
        it.isActive = true ∧ now ≤ it.availableUntil ∧
        1 ≤ it.quantityAvailable ∧
        row = { item := it,
                createdByUser := (updateExpiredItemsStatus now db).1.users.find?
                  (fun u => decide (u.id = it.createdBy)) }) ∧
    (getAllActiveFoodItems now db).1.Pairwise newerRowFirst := by
  refine ⟨rfl, ?_, ?_⟩
  · intro row
    unfold getAllActiveFoodItems
    dsimp only
    rw [List.mem_insertionSort]
    constructor
    · intro hrow
      obtain ⟨it, hit, hrow⟩ := List.mem_map.mp hrow
      obtain ⟨hmem, hpred⟩ := List.mem_filter.mp hit
      have hp := of_decide_eq_true hpred
      exact ⟨it, hmem, hp.1, hp.2.1, hp.2.2, hrow.symm⟩
    · rintro ⟨it, hmem, h1, h2, h3, rfl⟩
      refine List.mem_map.mpr ⟨it, ?_, rfl⟩
      exact List.mem_filter.mpr ⟨hmem, by simp [h1, h2, h3]⟩
  · unfold getAllActiveFoodItems
    dsimp only
    exact List.sorted_insertionSort newerRowFirst _
/-- Concrete run of listActive through claim_C8_amended: the boundary item
(availableUntil = now = 100) is a member of the returned rows, joined with its
creator. -/
theorem claim_C8_amended_witness :
    { item := exItemBoundary, createdByUser := some exUser } ∈
      (getAllActiveFoodItems 100 exDbBoundary).1 := by
  refine ((claim_C8_amended 100 exDbBoundary).2.1 _).mpr
    ⟨exItemBoundary, by decide, rfl, by decide, by decide, ?_⟩
  decide

/-- Donation row already marked collected. -/
def exDonCollected : FoodDonation :=
  { id := 31, foodItemId := 1, ngoName := none, ngoContactPerson := none,
    ngoPhoneNumber := none, quantityDonated := 3, status := "collected",
    donatedAt := some 60, reservedAt := none, collectedAt := some 70,
    notes := none, createdAt := 60 }

/-- Store holding the collected donation. -/
def exDbDonation : DB :=
  { users := [], items := [exItem], claims := [], donations := [exDonCollected] }

/-- Image of the collected donation after the reserve-for-NGO handler. -/
def exDonReserved : FoodDonation :=
  { id := 31, foodItemId := 1, ngoName := some "Food Bank",
    ngoContactPerson := some "Asha", ngoPhoneNumber := some "555",
    quantityDonated := 3, status := "reserved_for_ngo",
    donatedAt := some 60, reservedAt := some 400, collectedAt := some 70,
    notes := none, createdAt := 60 }

/-- C9 counterexample — the claim states reserveForNGO requires the donation's
status to be "available". The handler performs no such check: applied to the
stored donation whose status is "collected" with all three NGO fields
non-empty, it succeeds and rewrites the status to "reserved_for_ngo". -/
theorem claim_C9_counterexample :
    donationById 31 exDbDonation = some exDonCollected ∧
    exDonCollected.status = "collected" ∧
    (reserveDonationRoute 31 "Food Bank" "Asha" "555" 400 exDbDonation).1 =
      .updated (some exDonReserved) ∧
    donationById 31 (reserveDonationRoute 31 "Food Bank" "Asha" "555" 400
      exDbDonation).2 = some exDonReserved := by decide

/-- C9 (amended) — reserveForNGO(donationId, ngoName, ngoContact, ngoPhone):
all three NGO fields are mandatory and an empty one (including an empty
ngoPhoneNumber) makes it fail with ValidationError leaving the store
unchanged; with all three non-empty it sets status "reserved_for_ngo", stores
the three NGO fields and stamps reservedAt — on a donation of ANY current
status (the handler never checks that the status is "available"). -/
theorem claim_C9_amended (donId : Nat) (n cp ph : String) (now : Int) (db : DB) :
    ((n = "" ∨ cp = "" ∨ ph = "") →
      reserveDonationRoute donId n cp ph now db = (.ngoInfoRequired, db)) ∧
    (n ≠ "" → cp ≠ "" → ph ≠ "" →
      (reserveDonationRoute donId n cp ph now db).2.items = db.items ∧
      (reserveDonationRoute donId n cp ph now db).2.claims = db.claims ∧
      (reserveDonationRoute donId n cp ph now db).2.users = db.users ∧
      ∀ d, donationById donId db = some d →
        donationById donId (reserveDonationRoute donId n cp ph now db).2 =
          some { d with status := "reserved_for_ngo", ngoName := some n, ngoContactPerson := some cp, ngoPhoneNumber := some ph, reservedAt := some now } ∧
        (reserveDonationRoute donId n cp ph now db).1 =
          .updated (some { d with status := "reserved_for_ngo", ngoName := some n, ngoContactPerson := some cp, ngoPhoneNumber := some ph, reservedAt := some now })) := by
  constructor
  · intro h
    unfold reserveDonationRoute
    rw [if_pos h]
  · intro hn hcp hph
    have hcond : ¬(n = "" ∨ cp = "" ∨ ph = "") := by simp [hn, hcp, hph]
    have hroute : reserveDonationRoute donId n cp ph now db =
        (.updated (updateDonationStatus donId "reserved_for_ngo"
            (some { ngoName := n, ngoContactPerson := cp, ngoPhoneNumber := ph })
            now db).1,
         (updateDonationStatus donId "reserved_for_ngo"
            (some { ngoName := n, ngoContactPerson := cp, ngoPhoneNumber := ph })
            now db).2) := by
      unfold reserveDonationRoute
      rw [if_neg hcond]
    rw [hroute]
    refine ⟨rfl, rfl, rfl, ?_⟩
    intro d hd
    have hkey : donationById donId (updateDonationStatus donId "reserved_for_ngo"
        (some { ngoName := n, ngoContactPerson := cp, ngoPhoneNumber := ph })
        now db).2 =
        some { d with status := "reserved_for_ngo", ngoName := some n, ngoContactPerson := some cp, ngoPhoneNumber := some ph, reservedAt := some now } := by
      rw [donationById_updateDonationStatus, hd]
      dsimp only [Option.map]
      rw [if_pos (by simpa using List.find?_some hd), if_pos rfl]
    refine ⟨hkey, ?_⟩
    have hfst : (updateDonationStatus donId "reserved_for_ngo"
        (some { ngoName := n, ngoContactPerson := cp, ngoPhoneNumber := ph })
        now db).1 =
        donationById donId (updateDonationStatus donId "reserved_for_ngo"
          (some { ngoName := n, ngoContactPerson := cp, ngoPhoneNumber := ph })
          now db).2 := rfl
    rw [hfst, hkey]

/-- Concrete runs of the reserve-for-NGO handler through claim_C9_amended: an
empty phone number is rejected with the store unchanged, and the collected
donation (non-"available" status) is reserved anyway once all fields are
non-empty. -/
theorem claim_C9_amended_witness :
    reserveDonationRoute 31 "Food Bank" "Asha" "" 400 exDbDonation =
      (.ngoInfoRequired, exDbDonation) ∧
    donationById 31 (reserveDonationRoute 31 "Food Bank" "Asha" "555" 400
      exDbDonation).2 = some exDonReserved := by
  constructor
  · exact (claim_C9_amended 31 "Food Bank" "Asha" "" 400 exDbDonation).1
      (Or.inr (Or.inr rfl))
  · have h := (((claim_C9_amended 31 "Food Bank" "Asha" "555" 400
      exDbDonation).2 (by decide) (by decide) (by decide)).2.2.2
      exDonCollected (by decide)).1
    exact h.trans (by decide)

/-- A once-swept item row is a fixed point of both sweeper passes at the same
instant. -/
theorem sweptItem_stable (now : Int) (it : FoodItem) :
    deactivateExpired now (reactivateCurrent now (deactivateExpired now it)) =
      reactivateCurrent now (deactivateExpired now it) ∧
    reactivateCurrent now (reactivateCurrent now (deactivateExpired now it)) =
      reactivateCurrent now (deactivateExpired now it) := by
  unfold reactivateCurrent deactivateExpired
  split_ifs <;> constructor <;> first
    | rfl
    | (simp_all <;> omega)

/-- A store whose item rows are all fixed points of both sweeper passes is
left unchanged by the sweeper, which then reports zero deactivations. -/
theorem sweep_stable_of_swept (now : Int) (db2 : DB)
    (h : ∀ s ∈ db2.items,
      deactivateExpired now s = s ∧ reactivateCurrent now s = s) :
    updateExpiredItemsStatus now db2 = (db2, 0) := by
  unfold updateExpiredItemsStatus
  dsimp only
  have h1 : db2.items.map (deactivateExpired now) = db2.items :=
    map_id_of_eq (fun s hs => (h s hs).1)
  have h2 : db2.items.map (reactivateCurrent now) = db2.items :=
    map_id_of_eq (fun s hs => (h s hs).2)
  have h3 : db2.items.filter (fun it =>
      decide (it.isActive = true ∧ it.availableUntil < now)) = [] := by
    refine List.filter_eq_nil_iff.mpr (fun s hs hpred => ?_)
    have hp := of_decide_eq_true hpred
    have hds := (h s hs).1
    unfold deactivateExpired at hds
    rw [if_pos hp] at hds
    have hbool := congrArg FoodItem.isActive hds
    simp [hp.1] at hbool
  rw [h1, h2, h3]
  rfl

/-- Full behaviour of the donation-creation loop: the resulting table is the
input table plus a block of new rows; the returned count is the block's size;
every new row is an "available" donation carrying the remaining quantity of a
positive-quantity item of the processed list; the new rows target pairwise
distinct items, none of which already had a donation row; and afterwards every
positive-quantity processed item has a donation row. -/
theorem transferLoop_spec (now : Int) (L : List FoodItem) :
    ∀ dons : List FoodDonation,
      ∃ nw : List FoodDonation,
        (transferLoop now L dons).1 = dons ++ nw ∧
        (transferLoop now L dons).2 = nw.length ∧
        (∀ d ∈ nw, d.status = "available" ∧
          ∃ it ∈ L, it.id = d.foodItemId ∧
            d.quantityDonated = it.quantityAvailable ∧
            0 < it.quantityAvailable) ∧
        nw.Pairwise (fun a b => a.foodItemId ≠ b.foodItemId) ∧
        (∀ d ∈ nw, ∀ d0 ∈ dons, d0.foodItemId ≠ d.foodItemId) ∧
        (∀ it ∈ L, 0 < it.quantityAvailable →
          ∃ d ∈ dons ++ nw, d.foodItemId = it.id) := by
  induction L with
  | nil =>
    intro dons
    refine ⟨[], ?_, ?_, ?_, ?_, ?_, ?_⟩ <;> simp [transferLoop]
  | cons it rest ih =>
    intro dons
    by_cases hq : 0 < it.quantityAvailable
    · by_cases hex : (dons.find? (fun d => decide (d.foodItemId = it.id))).isSome
      · obtain ⟨nw, ha, hb, hc, hd2, he, hf⟩ := ih dons
        have hstep : transferLoop now (it :: rest) dons =
            transferLoop now rest dons := by
          simp only [transferLoop]
          rw [if_pos hq, if_pos hex]
        obtain ⟨d0, hd0⟩ := Option.isSome_iff_exists.mp hex
        have hd0mem : d0 ∈ dons := List.mem_of_find?_eq_some hd0
        have hd0id : d0.foodItemId = it.id := by
          simpa using List.find?_some hd0
        refine ⟨nw, by rw [hstep]; exact ha, by rw [hstep]; exact hb, ?_,
          hd2, he, ?_⟩
        · intro d hd
          obtain ⟨hst, it', hit', hrest⟩ := hc d hd
          exact ⟨hst, it', List.mem_cons_of_mem _ hit', hrest⟩
        · intro it' hit' hq'
          rcases List.mem_cons.mp hit' with rfl | hmem
          · exact ⟨d0, List.mem_append_left _ hd0mem, hd0id⟩
          · exact hf it' hmem hq'
      · obtain ⟨nw, ha, hb, hc, hd2, he, hf⟩ :=
          ih (dons ++ [mkAutoDonation dons.length it now])
        have hstep : transferLoop now (it :: rest) dons =
            ((transferLoop now rest
                (dons ++ [mkAutoDonation dons.length it now])).1,
             (transferLoop now rest
                (dons ++ [mkAutoDonation dons.length it now])).2 + 1) := by
          simp only [transferLoop]
          rw [if_pos hq, if_neg hex]
        have hnone : dons.find? (fun d => decide (d.foodItemId = it.id)) = none :=
          Option.not_isSome_iff_eq_none.mp hex
        have hdisj : ∀ d0 ∈ dons, d0.foodItemId ≠ it.id := by
          intro d0 hd0
          have := List.find?_eq_none.mp hnone d0 hd0
          simpa using this
        refine ⟨mkAutoDonation dons.length it now :: nw, ?_, ?_, ?_, ?_, ?_, ?_⟩
        · rw [hstep]
          dsimp only
          rw [ha]
          simp
        · rw [hstep]
          dsimp only
          rw [hb]
          simp
        · intro d hd
          rcases List.mem_cons.mp hd with rfl | hmem
          · exact ⟨rfl, it, List.mem_cons_self it rest, rfl, rfl, hq⟩
          · obtain ⟨hst, it', hit', hrest⟩ := hc d hmem
            exact ⟨hst, it', List.mem_cons_of_mem _ hit', hrest⟩
        · refine List.Pairwise.cons ?_ hd2
          intro b hb'
          exact he b hb' (mkAutoDonation dons.length it now)
            (List.mem_append_right _ (List.mem_singleton_self _))
        · intro d hd d0 hd0
          rcases List.mem_cons.mp hd with rfl | hmem
          · exact hdisj d0 hd0
          · exact he d hmem d0 (List.mem_append_left _ hd0)
        · intro it' hit' hq'
          rcases List.mem_cons.mp hit' with rfl | hmem
          · refine ⟨mkAutoDonation dons.length it' now, ?_, rfl⟩
            exact List.mem_append_right _ (List.mem_cons_self _ _)
          · obtain ⟨d, hdmem, hdid⟩ := hf it' hmem hq'
            refine ⟨d, ?_, hdid⟩
            rw [List.append_assoc] at hdmem
            simpa using hdmem
    · obtain ⟨nw, ha, hb, hc, hd2, he, hf⟩ := ih dons
      have hstep : transferLoop now (it :: rest) dons =
          transferLoop now rest dons := by
        simp only [transferLoop]
        rw [if_neg hq]
      refine ⟨nw, by rw [hstep]; exact ha, by rw [hstep]; exact hb, ?_,
        hd2, he, ?_⟩
      · intro d hd
        obtain ⟨hst, it', hit', hrest⟩ := hc d hd
        exact ⟨hst, it', List.mem_cons_of_mem _ hit', hrest⟩
      · intro it' hit' hq'
        rcases List.mem_cons.mp hit' with rfl | hmem
        · exact absurd hq' hq
        · exact hf it' hmem hq'

/-- When every positive-quantity item of the processed list already has a
donation row, the loop creates nothing and returns zero. -/
theorem transferLoop_covered (now : Int) (L : List FoodItem) :
    ∀ dons : List FoodDonation,
      (∀ it ∈ L, 0 < it.quantityAvailable →
        ∃ d ∈ dons, d.foodItemId = it.id) →
      transferLoop now L dons = (dons, 0) := by
  induction L with
  | nil => intro dons _; rfl
  | cons it rest ih =>
    intro dons hcov
    by_cases hq : 0 < it.quantityAvailable
    · obtain ⟨d, hdmem, hdid⟩ := hcov it (List.mem_cons_self _ _) hq
      have hex : (dons.find? (fun d => decide (d.foodItemId = it.id))).isSome := by
        rcases hfind : dons.find? (fun d => decide (d.foodItemId = it.id)) with _ | d0
        · exfalso
          have := List.find?_eq_none.mp hfind d hdmem
          simp [hdid] at this
        · rw [hfind]
          rfl
      have hstep : transferLoop now (it :: rest) dons =
          transferLoop now rest dons := by
        simp only [transferLoop]
        rw [if_pos hq, if_pos hex]
      rw [hstep]
      exact ih dons (fun it' h' hq' => hcov it' (List.mem_cons_of_mem _ h') hq')
    · have hstep : transferLoop now (it :: rest) dons =
          transferLoop now rest dons := by
        simp only [transferLoop]
        rw [if_neg hq]
      rw [hstep]
      exact ih dons (fun it' h' hq' => hcov it' (List.mem_cons_of_mem _ h') hq')

/-- A transfer run on a store that the sweeper fixes and whose
positive-quantity expired items are all covered by donation rows changes
nothing and reports zero. -/
theorem transfer_of_stable (now : Int) (db2 : DB)
    (hst : updateExpiredItemsStatus now db2 = (db2, 0))
    (hcov : ∀ it ∈ getExpiredFoodItems now db2, 0 < it.quantityAvailable →
      ∃ d ∈ db2.donations, d.foodItemId = it.id) :
    transferExpiredItemsToDonations now db2 = (db2, 0) := by
  unfold transferExpiredItemsToDonations
  rw [hst]
  dsimp only
  rw [transferLoop_covered now (getExpiredFoodItems now db2) db2.donations hcov]

/-- C6 — transferExpired() is idempotent: the run appends a block of donation
rows, one per qualifying item, each with status "available" and
quantityDonated equal to the item's remaining quantityAvailable; only items
with isActive = false, availableUntil < now and quantityAvailable > 0 produce
a donation; the created rows target pairwise distinct items none of which
already had a donation row; the returned count is the number of rows created;
and a second run immediately after the first changes nothing and returns 0. -/
theorem claim_C6 (now : Int) (db : DB) :
    ∃ nw : List FoodDonation,
      (transferExpiredItemsToDonations now db).1.donations =
        db.donations ++ nw ∧
      (transferExpiredItemsToDonations now db).2 = nw.length ∧
      (∀ d ∈ nw, d.status = "available" ∧
        ∃ it : FoodItem, it ∈ (transferExpiredItemsToDonations now db).1.items ∧
          it.id = d.foodItemId ∧ d.quantityDonated = it.quantityAvailable ∧
          it.isActive = false ∧ it.availableUntil < now ∧
          0 < it.quantityAvailable) ∧
      nw.Pairwise (fun a b => a.foodItemId ≠ b.foodItemId) ∧
      (∀ d ∈ nw, ∀ d0 ∈ db.donations, d0.foodItemId ≠ d.foodItemId) ∧
      transferExpiredItemsToDonations now
          (transferExpiredItemsToDonations now db).1 =
        ((transferExpiredItemsToDonations now db).1, 0) := by
  obtain ⟨nw, ha, hb, hc, hd2, he, hf⟩ :=
    transferLoop_spec now
      (getExpiredFoodItems now (updateExpiredItemsStatus now db).1)
      (updateExpiredItemsStatus now db).1.donations
  have hstable : ∀ s ∈ (updateExpiredItemsStatus now db).1.items,
      deactivateExpired now s = s ∧ reactivateCurrent now s = s := by
    intro s hs
    unfold updateExpiredItemsStatus at hs
    dsimp only at hs
    obtain ⟨y, hy, rfl⟩ := List.mem_map.mp hs
    obtain ⟨x, _, rfl⟩ := List.mem_map.mp hy
    exact sweptItem_stable now x
  refine ⟨nw, ha, hb, ?_, hd2, he, ?_⟩
  · intro d hd
    obtain ⟨hst, it, hitE, hid, hqty, hpos⟩ := hc d hd
    have hitE' := hitE
    unfold getExpiredFoodItems at hitE'
    rw [List.mem_insertionSort] at hitE'
    obtain ⟨hmem, hpred⟩ := List.mem_filter.mp hitE'
    have hp := of_decide_eq_true hpred
    exact ⟨hst, it, hmem, hid, hqty, hp.1, hp.2, hpos⟩
  · refine transfer_of_stable now (transferExpiredItemsToDonations now db).1
      (sweep_stable_of_swept now _ (fun s hs => hstable s hs)) ?_
    intro it hit hq
    rw [show (transferExpiredItemsToDonations now db).1.donations =
        (updateExpiredItemsStatus now db).1.donations ++ nw from ha]
    exact hf it hit hq

/-- Inactive, past-deadline item with three remaining portions — the spec's
transferExpired example. -/
def exItemExpired : FoodItem :=
  { id := 4, name := "Biryani", description := none, canteenName := "Main",
    canteenLocation := none, quantityAvailable := 3,
    originalPrice := "220.00", discountedPrice := "150.00", imageUrl := none,
    availableUntil := 80, isActive := true, createdBy := 9,
    createdAt := 12, updatedAt := 12 }

/-- Catalog holding the expired item and no donations. -/
def exDbTransfer : DB :=
  { users := [], items := [exItemExpired], claims := [], donations := [] }

/-- Concrete double run of transferExpired through claim_C6 at now = 100: the
first run creates a block of donations accounting for its returned count, and
the second run returns (same store, 0). -/
theorem claim_C6_witness :
    ∃ nw : List FoodDonation,
      (transferExpiredItemsToDonations 100 exDbTransfer).1.donations =
        exDbTransfer.donations ++ nw ∧
      (transferExpiredItemsToDonations 100 exDbTransfer).2 = nw.length ∧
      (∀ d ∈ nw, d.status = "available" ∧
        ∃ it : FoodItem,
          it ∈ (transferExpiredItemsToDonations 100 exDbTransfer).1.items ∧
          it.id = d.foodItemId ∧ d.quantityDonated = it.quantityAvailable ∧
          it.isActive = false ∧ it.availableUntil < 100 ∧
          0 < it.quantityAvailable) ∧
      nw.Pairwise (fun a b => a.foodItemId ≠ b.foodItemId) ∧
      (∀ d ∈ nw, ∀ d0 ∈ exDbTransfer.donations, d0.foodItemId ≠ d.foodItemId) ∧
      transferExpiredItemsToDonations 100
          (transferExpiredItemsToDonations 100 exDbTransfer).1 =
        ((transferExpiredItemsToDonations 100 exDbTransfer).1, 0) :=
  claim_C6 100 exDbTransfer

end RePlate
